import Mathlib

/-!
Verification of the optimizer driver and sampling-model contracts of
`cma/interfaces.py` (classes `OOOptimizer`,
`StatisticalModelSamplerWithZeroMeanBaseClass`, `BaseDataLogger`).

The shallow embedding translates each Python method into an executable
Lean definition.  Python exceptions are modelled with `Except PyError`;
attribute presence is modelled with `Option`; float arithmetic in the
parameter formulas is modelled exactly over `ℚ`; the `optimize` loop is
modelled as a fuel-indexed recursion whose result records the number of
iterations performed (`citer`), the number of objective evaluations
(`cevals`) and whether the post-loop forced final logging was reached
(`flushed`).
-/

/-- The Python exception kinds that occur in `cma/interfaces.py`. -/
inductive PyError : Type where
  | notImplemented
  | attributeError
  | typeError
  | valueError
deriving DecidableEq

/-- Result of a terminating run of `OOOptimizer.optimize` (lines 165-193):
`citer` iterations were performed, `cevals` objective evaluations were
accumulated, and `flushed` records whether the code after the `while` loop
(the `self._force_final_logging()` call, line 185) was reached, as opposed
to the early `return self` inside the loop body (line 173). -/
structure LoopResult : Type where
  citer : Nat
  cevals : Nat
  flushed : Bool
deriving DecidableEq

/-- The iteration-budget test `citer >= (iterations if iterations else np.inf)`
(lines 171-172).  Python truthiness makes both `None` and `0` select
`np.inf`, against which `citer >= np.inf` is always false. -/
def iterCap (iterations : Option Nat) (citer : Nat) : Bool :=
  match iterations with
  | none => false
  | some n => if n = 0 then false else decide (n ≤ citer)

/-- The `while` loop of `OOOptimizer.optimize` (lines 169-182), abstracted
over a concrete optimizer: `stop k` is the truth value of `self.stop()`
being non-empty after `k` completed iterations, and `askLen k` is the
number of candidates `len(X)` that `self.ask()` returns in iteration
`k + 1`.  One fuel unit is spent per loop entry; `none` means the fuel was
exhausted before the run returned.

The body mirrors the source: first the loop condition
`not self.stop() or citer < min_iterations`, then the budget test
`cevals >= maxfun or citer >= (iterations if iterations else np.inf)`
which returns `self` *inside* the loop (`flushed := false`), otherwise
`citer += 1`, `cevals += len(fitvals)` and the next round; when the loop
condition fails the driver falls through to `_force_final_logging`
(`flushed := true`). -/
def optimizeLoop (stop : Nat → Bool) (askLen : Nat → Nat)
    (maxfun : Nat) (iterations : Option Nat) (minIterations : Nat) :
    Nat → Nat → Nat → Option LoopResult
  | _citer, _cevals, 0 => none
  | citer, cevals, fuel + 1 =>
    if stop citer = false ∨ citer < minIterations then
      if maxfun ≤ cevals ∨ iterCap iterations citer = true then
        some ⟨citer, cevals, false⟩
      else
        optimizeLoop stop askLen maxfun iterations minIterations
          (citer + 1) (cevals + askLen citer) fuel
    else
      some ⟨citer, cevals, true⟩

/-- `OOOptimizer.optimize` starts its loop from `citer, cevals = 0, 0`
(line 169). -/
def optimize (stop : Nat → Bool) (askLen : Nat → Nat)
    (maxfun : Nat) (iterations : Option Nat) (minIterations fuel : Nat) :
    Option LoopResult :=
  optimizeLoop stop askLen maxfun iterations minIterations 0 0 fuel

theorem optimizeLoop_flushed_iff (stop : Nat → Bool) (askLen : Nat → Nat)
    (maxfun : Nat) (iterations : Option Nat) (minIterations : Nat) :
    ∀ fuel citer cevals r,
      optimizeLoop stop askLen maxfun iterations minIterations citer cevals fuel = some r →
      (r.flushed = true ↔ (stop r.citer = true ∧ minIterations ≤ r.citer)) := by
  intro fuel
  induction fuel with
  | zero => intro citer cevals r h; simp [optimizeLoop] at h
  | succ fuel ih =>
    intro citer cevals r h
    rw [optimizeLoop] at h
    split at h
    · rename_i hcond
      split at h
      · cases h
        constructor
        · intro hf; exact absurd hf (by simp)
        · rintro ⟨hs, hm⟩
          rcases hcond with hc | hc
          · rw [hs] at hc; exact absurd hc (by simp)
          · exact absurd hm (Nat.not_le.mpr hc)
      · exact ih _ _ r h
    · rename_i hcond
      cases h
      push_neg at hcond
      obtain ⟨h1, h2⟩ := hcond
      have hs : stop citer = true := by
        cases hst : stop citer with
        | true => rfl
        | false => exact absurd hst h1
      exact ⟨fun _ => ⟨hs, h2⟩, fun _ => rfl⟩

theorem optimizeLoop_citer_le (stop : Nat → Bool) (askLen : Nat → Nat)
    (maxfun : Nat) (n : Nat) (minIterations : Nat) (hn : 0 < n) :
    ∀ fuel citer cevals r, citer ≤ n →
      optimizeLoop stop askLen maxfun (some n) minIterations citer cevals fuel = some r →
      r.citer ≤ n := by
  intro fuel
  induction fuel with
  | zero => intro citer cevals r _ h; simp [optimizeLoop] at h
  | succ fuel ih =>
    intro citer cevals r hle h
    rw [optimizeLoop] at h
    split at h
    · split at h
      · cases h; exact hle
      · rename_i hbudget
        push_neg at hbudget
        have hcap : iterCap (some n) citer = false := by
          have := hbudget.2
          simpa using this
        have hlt : citer < n := by
          by_contra hge
          have : iterCap (some n) citer = true := by
            simp [iterCap, Nat.pos_iff_ne_zero.mp hn]
            omega
          rw [this] at hcap; exact absurd hcap (by simp)
        exact ih _ _ r hlt h
    · cases h; exact hle

theorem optimizeLoop_cevals_le (stop : Nat → Bool) (askLen : Nat → Nat)
    (maxfun : Nat) (iterations : Option Nat) (minIterations B : Nat)
    (hB : ∀ i, askLen i ≤ B) :
    ∀ fuel citer cevals r, cevals ≤ maxfun - 1 + B →
      optimizeLoop stop askLen maxfun iterations minIterations citer cevals fuel = some r →
      r.cevals ≤ maxfun - 1 + B := by
  intro fuel
  induction fuel with
  | zero => intro citer cevals r _ h; simp [optimizeLoop] at h
  | succ fuel ih =>
    intro citer cevals r hle h
    rw [optimizeLoop] at h
    split at h
    · split at h
      · cases h; exact hle
      · rename_i hbudget
        push_neg at hbudget
        have hlt : cevals < maxfun := hbudget.1
        have : cevals + askLen citer ≤ maxfun - 1 + B := by
          have := hB citer
          omega
        exact ih _ _ r this h
    · cases h; exact hle

theorem optimizeLoop_maxfun_zero (stop : Nat → Bool) (askLen : Nat → Nat)
    (iterations : Option Nat) (minIterations fuel : Nat) (r : LoopResult)
    (h : optimizeLoop stop askLen 0 iterations minIterations 0 0 (fuel + 1) = some r) :
    r.citer = 0 ∧ r.cevals = 0 := by
  rw [optimizeLoop] at h
  split at h
  · split at h
    · cases h; exact ⟨rfl, rfl⟩
    · rename_i hbudget
      exact absurd (Or.inl (Nat.zero_le 0)) hbudget
  · cases h; exact ⟨rfl, rfl⟩

/-- C1 (amended): the forced final logger flush (`_force_final_logging`,
line 185) is reached if and only if the loop exits because `stop()` is
satisfied with `min_iterations` met; when `optimize` returns early through
the budget test (`cevals >= maxfun` or the iteration cap, line 173) it
returns `self` without performing the forced final flush. -/
theorem optimize_flush_iff_stop_exit (stop : Nat → Bool) (askLen : Nat → Nat)
    (maxfun : Nat) (iterations : Option Nat) (minIterations fuel : Nat) (r : LoopResult)
    (h : optimize stop askLen maxfun iterations minIterations fuel = some r) :
    r.flushed = true ↔ (stop r.citer = true ∧ minIterations ≤ r.citer) :=
  optimizeLoop_flushed_iff stop askLen maxfun iterations minIterations fuel 0 0 r h

theorem optimize_flush_iff_stop_exit_witness :
    (fun _ : Nat => true) 1 = true ∧ 1 ≤ 1 :=
  (optimize_flush_iff_stop_exit (fun _ => true) (fun _ => 1) 10 none 1 5
    ⟨1, 1, true⟩ rfl).mp rfl

/-- C1 counterexample: with `maxfun = 0` (and `stop()` empty) the run
terminates through the budget `return self` and the forced final flush is
*not* performed (`flushed = false`), refuting the claim that every exit
path performs `_force_final_logging` before returning. -/
theorem optimize_maxfun_exit_skips_flush :
    (optimize (fun _ => false) (fun _ => 1) 0 none 1 5).map LoopResult.flushed
      = some false := rfl

/-- C2 (amended): the budget test `cevals >= maxfun` runs before each
iteration (even while `citer < min_iterations`), so at most `maxfun - 1`
evaluations precede the last iteration and the total can exceed `maxfun`
by at most the last batch: whenever every `ask` batch has length at most
`B`, a terminating run satisfies `cevals ≤ maxfun - 1 + B`; for
`maxfun = 0` zero iterations run and no evaluation (hence no `ask`,
`tell` or callback dispatch) happens. -/
theorem optimize_eval_budget (stop : Nat → Bool) (askLen : Nat → Nat)
    (B maxfun : Nat) (iterations : Option Nat) (minIterations fuel : Nat) (r : LoopResult)
    (hB : ∀ i, askLen i ≤ B)
    (h : optimize stop askLen maxfun iterations minIterations fuel = some r) :
    r.cevals ≤ maxfun - 1 + B ∧ (maxfun = 0 → r.citer = 0 ∧ r.cevals = 0) := by
  refine ⟨optimizeLoop_cevals_le stop askLen maxfun iterations minIterations B hB
    fuel 0 0 r (Nat.zero_le _) h, ?_⟩
  intro h0
  subst h0
  cases fuel with
  | zero => simp [optimize, optimizeLoop] at h
  | succ fuel => exact optimizeLoop_maxfun_zero stop askLen iterations minIterations fuel r h

theorem optimize_eval_budget_witness :
    (0 : Nat) ≤ 0 - 1 + 1 ∧ ((0 : Nat) = 0 → (0 : Nat) = 0 ∧ (0 : Nat) = 0) := by
  have := optimize_eval_budget (fun _ => true) (fun _ => 1) 1 0 none 1 3
    ⟨0, 0, false⟩ (fun _ => Nat.le_refl 1) rfl
  exact ⟨this.1, fun _ => ⟨rfl, rfl⟩⟩

/-- C2 counterexample: with `maxfun = 1` and `ask` returning batches of 2
candidates, the run terminates having performed `cevals = 2 > 1 = maxfun`
objective evaluations, refuting the claim that `optimize` never performs
more than `maxfun` evaluations in total. -/
theorem optimize_exceeds_maxfun :
    optimize (fun _ => false) (fun _ => 2) 1 none 1 10 = some ⟨1, 2, false⟩
      ∧ 1 < 2 :=
  ⟨rfl, by omega⟩

/-- C3 (amended): whenever `iterations` is set to a *positive* value `n`,
a terminating run performs at most `n` iterations (`iterations = 0` is
falsy in `iterations if iterations else np.inf` and therefore imposes no
bound); and whenever the run exits through the loop condition rather than
a budget (`flushed = true`, i.e. the budgets allowed it), at least
`min_iterations` iterations were performed even if `stop()` was non-empty
from the first call on. -/
theorem optimize_iteration_bounds (stop : Nat → Bool) (askLen : Nat → Nat)
    (maxfun : Nat) (iterations : Option Nat) (minIterations fuel : Nat) (r : LoopResult)
    (h : optimize stop askLen maxfun iterations minIterations fuel = some r) :
    (∀ n, iterations = some n → 0 < n → r.citer ≤ n)
      ∧ (r.flushed = true → minIterations ≤ r.citer) := by
  constructor
  · intro n hn hpos
    subst hn
    exact optimizeLoop_citer_le stop askLen maxfun n minIterations hpos fuel 0 0 r
      (Nat.zero_le _) h
  · intro hf
    exact ((optimizeLoop_flushed_iff stop askLen maxfun iterations minIterations
      fuel 0 0 r h).mp hf).2

theorem optimize_iteration_bounds_witness :
    ((2 : Nat) ≤ 2) ∧ ((1 : Nat) ≤ 1) := by
  have := optimize_iteration_bounds (fun _ => true) (fun _ => 1) 10 (some 2) 1 5
    ⟨1, 1, true⟩ rfl
  exact ⟨Nat.le_refl 2, this.2 rfl⟩

/-- C3 counterexample: with `iterations = 0` and `min_iterations = 0` (so
the precondition `min_iterations <= iterations` holds), `stop()` always
empty and `maxfun = 3`, the run performs 3 iterations — more than the
stated bound of 0 — because `0` is falsy in
`iterations if iterations else np.inf`. -/
theorem optimize_iterations_zero_unbounded :
    (0 : Nat) ≤ 0
      ∧ optimize (fun _ => false) (fun _ => 1) 3 (some 0) 0 10 = some ⟨3, 3, false⟩
      ∧ 0 < 3 :=
  ⟨Nat.le_refl 0, rfl, by omega⟩

/-- The mapping returned by
`StatisticalModelSamplerWithZeroMeanBaseClass.parameters` (lines 279-284):
the default learning rates `c1` and `cmu`. -/
structure SamplerParams : Type where
  c1 : ℚ
  cmu : ℚ
deriving DecidableEq

/-- `mueff = sum(w)**2 / sum(w**2)` over
`w = [w for w in weights if w > 0]` (lines 273-274), computed exactly
over `ℚ`. -/
def mueff (weights : List ℚ) : ℚ :=
  ((weights.filter fun x => decide (0 < x)).sum) ^ 2
    / ((weights.filter fun x => decide (0 < x)).map fun x => x ^ 2).sum

/-- The body of `parameters` that recomputes the mapping (lines 271-284):
`lam = len(weights)`,
`c1 = np.min((1, lam / 6)) * 2 / ((dimension + 1.3)**2.0 + mueff)`,
`cmu = np.min((1 - c1, 2 * (mueff - 2 + 1/mueff) / ((dimension + 2)**2 + 2 * mueff / 2)))`. -/
def computeParameters (dimension : Nat) (weights : List ℚ) : SamplerParams :=
  let lam : ℚ := weights.length
  let mu := mueff weights
  let c1 := min 1 (lam / 6) * 2 / (((dimension : ℚ) + 13/10) ^ 2 + mu)
  { c1 := c1
    cmu := min (1 - c1) (2 * (mu - 2 + 1 / mu) / (((dimension : ℚ) + 2) ^ 2 + 2 * mu / 2)) }

/-- The mutable state of `StatisticalModelSamplerWithZeroMeanBaseClass`
relevant to `parameters`: the fixed `dimension` and the memo pair
`(self.weights, self._parameters)`; `none` models the state before the
first call, where reading `self.weights` raises `AttributeError`
(caught at lines 266-270). -/
structure SamplerState : Type where
  dimension : Nat
  cache : Option (List ℚ × SamplerParams)
deriving DecidableEq

/-- `parameters(self, weights)` (lines 262-285): if the stored
`self.weights` equals the argument values (`np.all(self.weights == weights)`)
return the memoized `self._parameters` unchanged; otherwise store a copy
of `weights`, recompute, store and return the new mapping. -/
def parametersCall (s : SamplerState) (weights : List ℚ) :
    SamplerParams × SamplerState :=
  match s.cache with
  | some (w, p) =>
    if w = weights then (p, s)
    else
      let p' := computeParameters s.dimension weights
      (p', { s with cache := some (weights, p') })
  | none =>
    let p' := computeParameters s.dimension weights
    (p', { s with cache := some (weights, p') })

/-- C4: `parameters` returns the mapping with
`c1 = min(1, lam/6) * 2 / ((dimension + 1.3)^2 + mueff)` and
`cmu = min(1 - c1, 2*(mueff - 2 + 1/mueff) / ((dimension + 2)^2 + 2*mueff/2))`
where `mueff` is the squared sum of the positive weights over the sum of
their squares and `lam` the total count of weights; concretely,
`weights = [1, 1]`, `dimension = 2` gives `mueff = 2` and
`c1 = (1/3) * 2 / ((3.3)^2 + 2)`. -/
theorem parameters_c1_cmu_formulas (d : Nat) (ws : List ℚ)
    (hw : ∃ w ∈ ws, 0 < w) (hd : 0 < d) :
    (computeParameters d ws).c1
        = min 1 ((ws.length : ℚ) / 6) * 2 / (((d : ℚ) + 13/10) ^ 2 + mueff ws)
      ∧ (computeParameters d ws).cmu
        = min (1 - (computeParameters d ws).c1)
            (2 * (mueff ws - 2 + 1 / mueff ws)
              / (((d : ℚ) + 2) ^ 2 + 2 * mueff ws / 2))
      ∧ mueff ws = ((ws.filter fun x => decide (0 < x)).sum) ^ 2
            / ((ws.filter fun x => decide (0 < x)).map fun x => x ^ 2).sum
      ∧ mueff [1, 1] = 2
      ∧ (computeParameters 2 [1, 1]).c1 = (1/3) * 2 / ((33/10 : ℚ) ^ 2 + 2) := by
  have hfil : ([1, 1] : List ℚ).filter (fun x => decide (0 < x)) = [1, 1] := by
    norm_num [List.filter]
  have hmu : mueff [1, 1] = 2 := by
    rw [mueff, hfil]
    norm_num
  refine ⟨rfl, rfl, rfl, hmu, ?_⟩
  have hc : (computeParameters 2 [1, 1]).c1
      = min 1 (((2 : Nat) : ℚ) / 6) * 2
          / ((((2 : Nat) : ℚ) + 13/10) ^ 2 + mueff [1, 1]) := rfl
  rw [hc, hmu]
  norm_num [min_def]

theorem parameters_c1_cmu_formulas_witness :
    (computeParameters 2 [1, 1]).c1
      = min 1 ((([1, 1] : List ℚ).length : ℚ) / 6) * 2
          / ((((2 : Nat) : ℚ) + 13/10) ^ 2 + mueff [1, 1]) :=
  (parameters_c1_cmu_formulas 2 [1, 1] ⟨1, by simp, by norm_num⟩ (by omega)).1

/-- C5: `parameters` is memoized on the value of the weights array:
calling it again with the same weights returns the cached mapping with
the state unchanged, while calling it with weights whose values differ
recomputes the mapping from the formulas and replaces the cache. -/
theorem parameters_memoization (s : SamplerState) (w w' : List ℚ)
    (hne : w' ≠ w) :
    parametersCall (parametersCall s w).2 w = parametersCall s w
      ∧ (parametersCall s w).2.cache = some (w, (parametersCall s w).1)
      ∧ (parametersCall (parametersCall s w).2 w').1
          = computeParameters s.dimension w'
      ∧ (parametersCall (parametersCall s w).2 w').2.cache
          = some (w', computeParameters s.dimension w') := by
  obtain ⟨d, c⟩ := s
  cases c with
  | none =>
    have h1 : ¬ (w = w') := fun h => hne h.symm
    simp only [parametersCall]
    simp [h1]
  | some wp =>
    obtain ⟨wc, pc⟩ := wp
    by_cases hw : wc = w
    · subst hw
      have h1 : ¬ (wc = w') := fun h => hne h.symm
      simp only [parametersCall]
      simp [h1]
    · have h1 : ¬ (w = w') := fun h => hne h.symm
      simp only [parametersCall]
      simp [hw, h1]

theorem parameters_memoization_witness :
    parametersCall (parametersCall ⟨2, none⟩ [1, 1]).2 [1, 1]
        = parametersCall ⟨2, none⟩ [1, 1]
      ∧ (parametersCall (parametersCall ⟨2, none⟩ [1, 1]).2 [2]).1
        = computeParameters 2 [2] := by
  have h := parameters_memoization ⟨2, none⟩ [1, 1] [2] (by decide)
  exact ⟨h.1, h.2.2.1⟩

/-- C10: with at least one strictly positive weight and a positive
dimension, every denominator inside `parameters` is positive — the sum of
squares of the positive weights, `mueff`, `(dimension + 1.3)^2 + mueff`
and `(dimension + 2)^2 + 2*mueff/2 = (dimension + 2)^2 + mueff` — so no
division by zero occurs; without a positive weight the `mueff` expression
divides zero by zero. -/
theorem parameters_division_safety (d : Nat) (ws : List ℚ) (hd : 0 < d) :
    ((∃ w ∈ ws, 0 < w) →
        0 < ((ws.filter fun x => decide (0 < x)).map fun x => x ^ 2).sum
      ∧ 0 < mueff ws
      ∧ 0 < ((d : ℚ) + 13/10) ^ 2 + mueff ws
      ∧ 0 < ((d : ℚ) + 2) ^ 2 + 2 * mueff ws / 2
      ∧ ((d : ℚ) + 2) ^ 2 + 2 * mueff ws / 2 = ((d : ℚ) + 2) ^ 2 + mueff ws)
      ∧ ((∀ w ∈ ws, w ≤ 0) →
        ((ws.filter fun x => decide (0 < x)).sum) ^ 2 = 0
      ∧ ((ws.filter fun x => decide (0 < x)).map fun x => x ^ 2).sum = 0) := by
  constructor
  · rintro ⟨w, hwmem, hwpos⟩
    have hmem : w ∈ ws.filter fun x => decide (0 < x) :=
      List.mem_filter.mpr ⟨hwmem, by simpa using hwpos⟩
    have hssq : 0 < ((ws.filter fun x => decide (0 < x)).map fun x => x ^ 2).sum := by
      apply List.sum_pos
      · intro y hy
        rcases List.mem_map.mp hy with ⟨z, hz, rfl⟩
        have hzpos : (0 : ℚ) < z := by
          have := (List.mem_filter.mp hz).2
          simpa using this
        exact pow_pos hzpos 2
      · intro hnil
        rw [List.map_eq_nil_iff] at hnil
        rw [hnil] at hmem
        exact absurd hmem (List.not_mem_nil w)
    have hsum : 0 < (ws.filter fun x => decide (0 < x)).sum := by
      apply List.sum_pos
      · intro y hy
        have := (List.mem_filter.mp hy).2
        simpa using this
      · intro hnil
        rw [hnil] at hmem
        exact absurd hmem (List.not_mem_nil w)
    have hmu : 0 < mueff ws := div_pos (pow_pos hsum 2) hssq
    have hsq1 : (0 : ℚ) ≤ ((d : ℚ) + 13/10) ^ 2 := sq_nonneg _
    have hsq2 : (0 : ℚ) ≤ ((d : ℚ) + 2) ^ 2 := sq_nonneg _
    refine ⟨hssq, hmu, by linarith, by linarith, by ring⟩
  · intro hall
    have hfil : ws.filter (fun x => decide (0 < x)) = [] := by
      rw [List.filter_eq_nil_iff]
      intro a ha
      simpa using not_lt.mpr (hall a ha)
    rw [hfil]
    simp

theorem parameters_division_safety_witness :
    0 < ((([1, 1] : List ℚ).filter fun x => decide (0 < x)).map fun x => x ^ 2).sum
      ∧ 0 < mueff [1, 1]
      ∧ 0 < (((2 : Nat) : ℚ) + 13/10) ^ 2 + mueff [1, 1]
      ∧ 0 < (((2 : Nat) : ℚ) + 2) ^ 2 + 2 * mueff [1, 1] / 2
      ∧ (((2 : Nat) : ℚ) + 2) ^ 2 + 2 * mueff [1, 1] / 2
          = (((2 : Nat) : ℚ) + 2) ^ 2 + mueff [1, 1] :=
  (parameters_division_safety 2 [1, 1] (by omega)).1 ⟨1, by simp, by norm_num⟩

/-- The possible shapes of the `callback` argument of `optimize` as
`_prepare_callback_list` distinguishes them (lines 195-218): Python
`None`, a single callable, an iterable whose entries are either a
callable (`some f`) or Python `None` (`none`, not callable), or a value
that is neither callable nor iterable. -/
inductive PyCallbackArg (α : Type) : Type where
  | pynone
  | callableFn (f : α)
  | iterable (entries : List (Option α))
  | nonIterable

/-- The validation loop of `_prepare_callback_list` (lines 209-217):
`for c in callback: if not callable(c): raise ValueError`. -/
def validateCallbacks {α : Type} (l : List (Option α)) :
    Except PyError (List (Option α)) :=
  if l.all Option.isSome then .ok l else .error .valueError

/-- `callback = list(callback) + [self.logger.add]` guarded by
`except AttributeError: pass` (lines 205-208): when the optimizer has no
usable `logger.add` the list is left unchanged. -/
def appendLoggerAdd {α : Type} (loggerAdd : Option α) (l : List (Option α)) :
    List (Option α) :=
  match loggerAdd with
  | none => l
  | some g => l ++ [some g]

/-- `OOOptimizer._prepare_callback_list` (lines 195-218): `None` becomes
`[]`, a callable becomes a one-element list, then `self.logger.add` is
appended when available, and finally every entry must be callable or a
`ValueError` is raised.  A non-iterable non-callable argument makes
`list(callback)` raise `TypeError`, which the surrounding
`except AttributeError` does not catch. -/
def prepare_callback_list {α : Type} (loggerAdd : Option α) :
    PyCallbackArg α → Except PyError (List (Option α))
  | .pynone => validateCallbacks (appendLoggerAdd loggerAdd [])
  | .callableFn f => validateCallbacks (appendLoggerAdd loggerAdd [some f])
  | .iterable l => validateCallbacks (appendLoggerAdd loggerAdd l)
  | .nonIterable => .error .typeError

/-- The per-iteration callback dispatch of `optimize` (lines 181-182):
`for f in callback: f is None or f(self)` — returns the callbacks that
are invoked, in invocation order. -/
def dispatchCallbacks {α : Type} : List (Option α) → List α
  | [] => []
  | none :: rest => dispatchCallbacks rest
  | some f :: rest => f :: dispatchCallbacks rest

/-- C6 (amended): a `None` entry in the callback list makes
`_prepare_callback_list` raise the invalid-callback `ValueError` at setup,
before any iteration runs, because `callable(None)` is false; the
per-iteration dispatch itself (`f is None or f(self)`) skips `None`
entries silently and invokes the remaining callbacks in list order with
the optimizer as sole argument. -/
theorem callback_none_rejected_dispatch_skips {α : Type}
    (loggerAdd : Option α) (l : List (Option α)) :
    (none ∈ l → prepare_callback_list loggerAdd (.iterable l) = .error .valueError)
      ∧ dispatchCallbacks l = l.filterMap id := by
  constructor
  · intro hm
    have hm' : none ∈ appendLoggerAdd loggerAdd l := by
      cases loggerAdd with
      | none => exact hm
      | some g => exact List.mem_append_left _ hm
    have hall : (appendLoggerAdd loggerAdd l).all Option.isSome = false := by
      cases hA : (appendLoggerAdd loggerAdd l).all Option.isSome with
      | false => rfl
      | true =>
        have := List.all_eq_true.mp hA none hm'
        simp at this
    simp [prepare_callback_list, validateCallbacks, hall]
  · induction l with
    | nil => rfl
    | cons hd tl ih =>
      cases hd with
      | none => simpa [dispatchCallbacks] using ih
      | some f => simpa [dispatchCallbacks] using ih

theorem callback_none_rejected_dispatch_skips_witness :
    prepare_callback_list none (.iterable [some (5 : Nat), none, some 8])
        = .error .valueError
      ∧ dispatchCallbacks [some (5 : Nat), none, some 8] = [5, 8] := by
  have h := callback_none_rejected_dispatch_skips none [some (5 : Nat), none, some 8]
  exact ⟨h.1 (by simp), h.2.trans rfl⟩

/-- C6 counterexample: passing a callback list that contains a `None`
entry to `optimize` raises `ValueError` during callback-list preparation
— with or without an attached logger — rather than being skipped
silently without error. -/
theorem callback_none_entry_raises :
    prepare_callback_list none (.iterable [some (7 : Nat), none])
        = .error .valueError
      ∧ prepare_callback_list (some (99 : Nat)) (.iterable [some 7, none])
        = .error .valueError :=
  ⟨rfl, rfl⟩

/-- The logger-relevant attributes probed by `_force_final_logging`
(lines 220-240): whether the logger object has an `add` attribute, whether
that `add` accepts the `modulo` keyword argument, and the truthiness
`bool(self.logger.modulo)` of its `modulo` attribute (`none` models the
attribute being absent, which line 231 turns into the fallback `1`). -/
structure LoggerModel : Type where
  hasAdd : Bool
  addAcceptsModulo : Bool
  modulo : Option Bool
deriving DecidableEq

/-- What the forced final flush did when it returned normally. -/
inductive FlushOutcome : Type where
  | noop
  | logged (modulo : Bool)
  | skippedMissingAdd
  | suppressedSignatureError
deriving DecidableEq

/-- `OOOptimizer._force_final_logging` (lines 220-240).  The optimizer's
`logger` attribute slot is `none` when the attribute does not exist (so
`if not self.logger` itself raises `AttributeError`), `some none` when it
is `None`/falsy (early return), and `some (some L)` when a logger object
is attached: then `modulo = bool(self.logger.modulo)` with fallback `1`
on `AttributeError`, and `self.logger.add(self, modulo=modulo)` has its
`AttributeError` passed and its `TypeError` suppressed with a printed
diagnostic. -/
def force_final_logging : Option (Option LoggerModel) → Except PyError FlushOutcome
  | none => .error .attributeError
  | some none => .ok .noop
  | some (some L) =>
    let m : Bool := L.modulo.getD true
    if L.hasAdd then
      if L.addAcceptsModulo then .ok (.logged m)
      else .ok .suppressedSignatureError
    else .ok .skippedMissingAdd

/-- C7 (amended): once the `logger` attribute exists, the forced final
flush never lets an exception escape: it is a no-op when the logger is
`None`/falsy, a missing `modulo` attribute falls back to "log now", a
missing `add` is caught (`AttributeError: pass`), and an `add` that does
not accept the `modulo` keyword is suppressed with a printed diagnostic;
but when the optimizer has no `logger` attribute at all, the initial
`if not self.logger` raises an uncaught `AttributeError` (see the
counterexample). -/
theorem flush_absorbs_failures_when_logger_present (L : LoggerModel) :
    force_final_logging (some none) = .ok .noop
      ∧ (∃ o, force_final_logging (some (some L)) = .ok o)
      ∧ (L.hasAdd = false →
          force_final_logging (some (some L)) = .ok .skippedMissingAdd)
      ∧ (L.hasAdd = true → L.addAcceptsModulo = false →
          force_final_logging (some (some L)) = .ok .suppressedSignatureError)
      ∧ (L.hasAdd = true → L.addAcceptsModulo = true →
          force_final_logging (some (some L)) = .ok (.logged (L.modulo.getD true))) := by
  obtain ⟨ha, hm, mo⟩ := L
  cases ha <;> cases hm <;>
    simp [force_final_logging]

theorem flush_absorbs_failures_when_logger_present_witness :
    force_final_logging (some none) = .ok .noop
      ∧ force_final_logging (some (some ⟨true, false, some false⟩))
        = .ok .suppressedSignatureError := by
  have h := flush_absorbs_failures_when_logger_present ⟨true, false, some false⟩
  exact ⟨h.1, h.2.2.2.1 rfl rfl⟩

/-- C7 counterexample: an optimizer with no `logger` attribute reaches
`if not self.logger` in `_force_final_logging` and an `AttributeError`
propagates out of `optimize` uncaught — a logger-related exception does
escape, and the flush is not a no-op in this "no logger attached"
configuration. -/
theorem flush_missing_logger_attribute_raises :
    force_final_logging none = .error .attributeError :=
  rfl

/-- The `OOOptimizer` state relevant to C8: the `countiter` attribute,
with `none` modelling "attribute not set". -/
structure OptState : Type where
  countiter : Option Nat
deriving DecidableEq

/-- `OOOptimizer.initialize` (lines 70-74): raises `NotImplementedError`
on line 72 *before* the documented reset `self.countiter = 0` (line 73)
can run, so the state is returned unchanged alongside the error. -/
def initBase (s : OptState) : OptState × Except PyError Unit :=
  (s, .error .notImplemented)

/-- `OOOptimizer.__init__` (lines 65-69): stores `xstart`/`more_kwargs`
(no `countiter` yet) and calls `self.initialize()`. -/
def constructBase : OptState × Except PyError Unit :=
  initBase { countiter := none }

/-- `OOOptimizer.ask` (lines 75-79): raises `NotImplementedError` without
touching any state. -/
def askBase (s : OptState) : OptState × Except PyError Unit :=
  (s, .error .notImplemented)

/-- `OOOptimizer.tell` (lines 80-85): `self.countiter += 1` (an
`AttributeError` if the attribute was never set), *then* raises
`NotImplementedError`, leaving the increment in place. -/
def tellBase (s : OptState) : OptState × Except PyError Unit :=
  match s.countiter with
  | none => (s, .error .attributeError)
  | some n => ({ countiter := some (n + 1) }, .error .notImplemented)

/-- C8 (amended): in the abstract base class, `ask` never mutates
`countiter`, `tell` increments `countiter` exactly once before signaling
the unimplemented failure, and `initialize` signals the unimplemented
failure *before* its documented reset `countiter = 0` can run — so
construction leaves `countiter` unset rather than 0. -/
theorem countiter_base_discipline (s : OptState) (n : Nat)
    (h : s.countiter = some n) :
    (askBase s).1.countiter = s.countiter
      ∧ tellBase s = ({ countiter := some (n + 1) }, .error .notImplemented)
      ∧ (initBase s).1.countiter = s.countiter
      ∧ (initBase s).2 = .error .notImplemented
      ∧ constructBase.1.countiter = none := by
  refine ⟨rfl, ?_, rfl, rfl, rfl⟩
  obtain ⟨c⟩ := s
  cases h
  rfl

theorem countiter_base_discipline_witness :
    (askBase { countiter := some 0 }).1.countiter = some 0
      ∧ tellBase { countiter := some 0 }
        = ({ countiter := some 1 }, .error .notImplemented) := by
  have h := countiter_base_discipline { countiter := some 0 } 0 rfl
  exact ⟨h.1, h.2.1⟩

/-- C8 counterexample: constructing the abstract base optimizer raises
the unimplemented failure from `initialize` before `countiter = 0` is
ever executed, so `countiter` is *not* initialized to 0 at optimizer
initialization — it is left unset. -/
theorem countiter_not_initialized_in_base :
    constructBase = ({ countiter := none }, .error .notImplemented)
      ∧ constructBase.1.countiter ≠ some 0 := by
  refine ⟨rfl, ?_⟩
  intro h
  cases h

/-- `StatisticalModelSamplerWithZeroMeanBaseClass.update` (lines 256-260):
the body is `raise NotImplementedError` — no length comparison of
`vectors` and `weights` is performed. -/
def updateBase (vectors : List (List ℚ)) (weights : List ℚ) :
    Except PyError Unit :=
  .error .notImplemented

/-- C9 (amended): `update` on the sampling-model base class signals the
unimplemented-contract failure unconditionally; it performs no length
check, so mismatched and matched `vectors`/`weights` lengths behave
identically and no shape-mismatch (invalid-argument) error is raised. -/
theorem update_base_unconditionally_unimplemented
    (vectors : List (List ℚ)) (weights : List ℚ) :
    updateBase vectors weights = .error .notImplemented :=
  rfl

/-- C9 counterexample: calling `update` with one vector and zero weights
(a length mismatch) fails with `NotImplementedError`, not with a
shape-mismatch (invalid-argument) `ValueError`; the lengths are never
checked. -/
theorem update_mismatch_not_shape_error :
    updateBase [[1]] [] = .error .notImplemented
      ∧ ([[(1 : ℚ)]].length ≠ ([] : List ℚ).length)
      ∧ (Except.error PyError.notImplemented
          ≠ (Except.error PyError.valueError : Except PyError Unit)) := by
  refine ⟨rfl, by simp, ?_⟩
  intro h
  cases h
